import Mathlib

/-!
Verification development for the pf_tracker personal-finance program
(`project.py`).  The functional core consists of the summary store
(`load_summary_data` / `save_summary_data`), the input validator
(`validate_number`), the summary calculator (`calculate_summary`) and the
submit handlers.  We embed these functions shallowly: Python floats become
exact rationals plus the IEEE special values, JSON documents become an
inductive value type, the summary file becomes an explicit state record,
and I/O failures the source catches become explicit boolean parameters.
-/

set_option autoImplicit false

namespace PFT

/-- Python float values as the tracker uses them.  Finite doubles are
modelled as exact rationals (the program performs no operation whose
specified behaviour depends on binary rounding); the special values
`inf`, `-inf` and `nan` — all producible here via `float("inf")` etc. —
are explicit constructors.  Python prints `-0.0` but compares it equal to
`0.0`, and the program never distinguishes them, so `finite 0` models
both. -/
inductive PyFloat where
  | finite (q : ℚ)
  | inf
  | negInf
  | nan
deriving DecidableEq, Repr

namespace PyFloat

/-- Python `+` on floats (IEEE semantics at the level the program
observes): `nan` absorbs, `inf + (-inf)` is `nan`, infinities absorb
finite values. -/
def add : PyFloat → PyFloat → PyFloat
  | nan, _ => nan
  | _, nan => nan
  | inf, negInf => nan
  | negInf, inf => nan
  | inf, _ => inf
  | _, inf => inf
  | negInf, _ => negInf
  | _, negInf => negInf
  | finite a, finite b => finite (a + b)

/-- Python unary minus on floats. -/
def neg : PyFloat → PyFloat
  | finite q => finite (-q)
  | inf => negInf
  | negInf => inf
  | nan => nan

/-- Python `-` on floats, as used for `total_income - total_expenses`. -/
def sub (a b : PyFloat) : PyFloat := add a (neg b)

/-- Python `<=` on floats: any comparison with `nan` is `False`. -/
def le : PyFloat → PyFloat → Bool
  | nan, _ => false
  | _, nan => false
  | negInf, _ => true
  | _, negInf => false
  | inf, inf => true
  | inf, finite _ => false
  | finite _, inf => true
  | finite a, finite b => decide (a ≤ b)

/-- Python `x == 0` on a float: true exactly for (positive or negative)
zero; `nan == 0` and `inf == 0` are `False`. -/
def eqZero : PyFloat → Bool
  | finite q => decide (q = 0)
  | _ => false

/-- Whether the value is a finite real number (`math.isfinite`). -/
def isFinite : PyFloat → Bool
  | finite _ => true
  | _ => false

end PyFloat

/-- JSON values as `json.load` produces them: numbers (Python's parser
also accepts the `Infinity` / `-Infinity` / `NaN` extensions, so a number
is any `PyFloat`), strings, booleans, `null`, arrays and objects.
Objects are association lists with the keys of any `json.load` output
distinct (last duplicate wins during parsing). -/
inductive JVal where
  | num (x : PyFloat)
  | str (s : String)
  | bool (b : Bool)
  | null
  | arr (xs : List JVal)
  | obj (kvs : List (String × JVal))

/-- A JSON object body: Python dict from string keys to JSON values. -/
abbrev Obj := List (String × JVal)

/-- Python `d[k]` / `d.get(k)` on a dict: the value at the first (for a
dict: only) occurrence of the key. -/
def alistGet : Obj → String → Option JVal
  | [], _ => none
  | (k, v) :: rest, key => if k = key then some v else alistGet rest key

/-- Python `k in d` on a dict. -/
def alistHas (o : Obj) (k : String) : Bool := (alistGet o k).isSome

/-- Python `d[k] = v` on a dict: overwrite in place (keeping insertion
order) if the key is present, else append. -/
def alistSet : Obj → String → JVal → Obj
  | [], key, val => [(key, val)]
  | (k, v) :: rest, key, val =>
      if k = key then (k, val) :: rest else (k, v) :: alistSet rest key val

/-! ### The float-string parser

Models CPython's `float(s)` on a `str` argument: surrounding whitespace
is ignored, an optional sign is followed by either `inf` / `infinity` /
`nan` (case-insensitive) or a decimal numeral `digits [. digits] [e
[sign] digits]` with at least one digit.  Finite numerals are taken at
their exact rational value (the real `float()` rounds to the nearest
double and overflows to `inf`; no claim below depends on rounding).
Digit-group underscores and non-ASCII digits, which CPython also
accepts, are not modelled. -/

/-- Value of a block of decimal digits. -/
def digitsToNat (ds : List Char) : ℕ :=
  ds.foldl (fun a c => a * 10 + (c.toNat - Char.toNat (Char.ofNat 48))) 0

/-- Parse the exponent suffix: empty, or `e` followed by an optionally
signed nonempty digit block. -/
def parseExp : List Char → Option ℤ
  | [] => some 0
  | c :: rest =>
      if c = Char.ofNat 101 then   -- the letter e (input is lowercased)
        match rest with
        | d :: t =>
            if d = Char.ofNat 43 then   -- plus sign
              if t ≠ [] ∧ t.all (·.isDigit) then some (digitsToNat t) else none
            else if d = Char.ofNat 45 then   -- minus sign
              if t ≠ [] ∧ t.all (·.isDigit) then some (-(digitsToNat t : ℤ)) else none
            else
              if (d :: t).all (·.isDigit) then some (digitsToNat (d :: t)) else none
        | [] => none
      else none

/-- Parse an unsigned decimal numeral (sign already consumed). -/
def parseDecimal (cs : List Char) (neg : Bool) : Option PyFloat :=
  let ip := cs.takeWhile (·.isDigit)
  let r1 := cs.dropWhile (·.isDigit)
  let hasDot := r1.head? = some (Char.ofNat 46)   -- a dot
  let afterDot := if hasDot then r1.tail else r1
  let fp := if hasDot then afterDot.takeWhile (·.isDigit) else []
  let r2 := if hasDot then afterDot.dropWhile (·.isDigit) else r1
  if ip = [] ∧ fp = [] then none
  else match parseExp r2 with
    | none => none
    | some e =>
        let mant : ℚ := (digitsToNat ip : ℚ) + (digitsToNat fp : ℚ) / (10 : ℚ) ^ fp.length
        let q : ℚ := mant * (10 : ℚ) ^ e
        some (.finite (if neg then -q else q))

/-- Parse an unsigned float body: the special words or a numeral. -/
def parseUnsigned (cs : List Char) (neg : Bool) : Option PyFloat :=
  if cs = "inf".toList ∨ cs = "infinity".toList then
    some (if neg then .negInf else .inf)
  else if cs = "nan".toList then some .nan
  else parseDecimal cs neg

/-- CPython `float(s)` for a string `s` (see the block comment above). -/
def floatOfString (s : String) : Option PyFloat :=
  match (s.trim.toLower).toList with
  | c :: r =>
      if c = Char.ofNat 43 then parseUnsigned r false       -- plus sign
      else if c = Char.ofNat 45 then parseUnsigned r true   -- minus sign
      else parseUnsigned (c :: r) false
  | [] => none

/-- CPython `float(x)` on a JSON value: numbers are returned, booleans
count as the integers 0 and 1, strings are parsed, and everything else
raises (`none`). -/
def pyFloatOfJVal : JVal → Option PyFloat
  | .num x => some x
  | .bool b => some (.finite (if b then 1 else 0))
  | .str s => floatOfString s
  | _ => none

/-! ### Configuration (`project.py` lines 16-26)

`PROGRAM_FILENAME` is `Path(sys.argv[0]).stem` at runtime; we model the
program run as `project.py`, so the stem is `project`. -/

def PROGRAM_FILENAME : String := "project"

def SUMMARY_FILENAME : String := PROGRAM_FILENAME ++ "_summary.json"

def BACKUP_SUFFIX : String := ".backup"

def INCOME_CATEGORIES : List String :=
  ["Salary", "Gift", "Investment", "Other"]

def EXPENSE_CATEGORIES : List String :=
  ["Food", "Housing", "Transportation", "Entertainment", "Health", "Education", "Other"]

/-- The body of `DEFAULT_SUMMARY`: every registry category mapped to 0.0
in its respective top-level key. -/
def DEFAULT_SUMMARY : Obj :=
  [("income", .obj (INCOME_CATEGORIES.map fun c => (c, .num (.finite 0)))),
   ("expenses", .obj (EXPENSE_CATEGORIES.map fun c => (c, .num (.finite 0))))]

/-- `path.with_suffix(path.suffix + BACKUP_SUFFIX).name`: the summary
filename ends in `.json`, so replacing that suffix by
`.json + .backup` appends `.backup` to the full filename. -/
def backupFileName : String := SUMMARY_FILENAME ++ BACKUP_SUFFIX

/-! ### The file-system model

The store touches one primary file and one backup file.  A file either
holds text that `json.load` parses to a value, or text that raises
`json.JSONDecodeError`.  Failures of the guarded I/O calls in the source
(the `try` blocks of `save_summary_data` and the read in
`load_summary_data`) are explicit parameters; the unguarded writes
inside `load_summary_data` (default creation, corruption replacement,
repair persistence) have no handler in the source and are modelled as
succeeding. -/

/-- Contents of a file as far as `json.load` is concerned. -/
inductive FileData where
  | corrupt
  | json (v : JVal)

/-- The two files the store touches: `none` means the file is absent. -/
structure FS where
  primary : Option FileData
  backup : Option FileData

/-- One repair the load routine can make (the source renders these as
the interpolated strings of lines 87, 94 and 100). -/
inductive Repair where
  | addedSection (name : String)
  | addedKey (name cat : String)
  | resetValue (name cat : String)
deriving DecidableEq, Repr

/-- A user-facing dialog raised by the store (the `messagebox` calls).
`saveError` carries the backup filename named in the dialog text. -/
inductive Msg where
  | fileCreated
  | corruptedReplaced
  | fileReadError
  | repairsMade (repairs : List Repair)
  | saveError (backupName : String)
deriving DecidableEq, Repr

/-! ### Load and repair (`load_summary_data`, lines 60-108) -/

/-- The dict after the missing-key check of lines 92-95: a missing
category has been inserted as 0.0. -/
def repairBase (cat : String) (sec : Obj) : Obj :=
  if alistHas sec cat then sec else alistSet sec cat (.num (.finite 0))

/-- One iteration of the per-category loop of lines 91-101: a missing
category is inserted as 0.0 (and recorded), then the current value is
passed through `float(...)`, an unconvertible value being reset to 0.0
(and recorded).  Returns the updated dict, the repair records in order,
and whether this iteration flagged a repair. -/
def repairStep (name cat : String) (sec : Obj) : Obj × List Repair × Bool :=
  match pyFloatOfJVal ((alistGet (repairBase cat sec) cat).getD .null) with
  | some x =>
      (alistSet (repairBase cat sec) cat (.num x),
       if alistHas sec cat then [] else [.addedKey name cat],
       !alistHas sec cat)
  | none =>
      (alistSet (repairBase cat sec) cat (.num (.finite 0)),
       (if alistHas sec cat then [] else [.addedKey name cat]) ++ [.resetValue name cat],
       true)

/-- The per-category loop of lines 91-101 over one expected-categories
list. -/
def repairCats (name : String) (sec : Obj) : List String → Obj × List Repair × Bool
  | [] => (sec, [], false)
  | cat :: rest =>
      let s := repairStep name cat sec
      let r := repairCats name s.1 rest
      (r.1, s.2.1 ++ r.2.1, s.2.2 || r.2.2)

/-- Lines 84-101 for one of the two top-level keys: a missing or
non-dict value is replaced wholesale by the all-zero dict, otherwise
the per-category loop runs. -/
def repairSub (data : Obj) (name : String) (expected : List String) :
    Obj × List Repair × Bool :=
  match alistGet data name with
  | some (.obj sec) =>
      let r := repairCats name sec expected
      (alistSet data name (.obj r.1), r.2.1, r.2.2)
  | _ =>
      (alistSet data name (.obj (expected.map fun c => (c, .num (.finite 0)))),
       [Repair.addedSection name], true)

/-- The whole repair pass of lines 81-101: `income` first, then
`expenses`. -/
def repairDoc (data : Obj) : Obj × List Repair × Bool :=
  let a := repairSub data "income" INCOME_CATEGORIES
  let b := repairSub a.1 "expenses" EXPENSE_CATEGORIES
  (b.1, a.2.1 ++ b.2.1, a.2.2 || b.2.2)

/-- `load_summary_data()` (lines 60-108) on file-system state `fs`;
`readFails` injects the `except Exception` read failure of line 77.
The result is `none` when the call raises an uncaught exception — this
happens exactly when the file parses to a JSON value that is not an
object, on which the `in` / item-assignment operations of the repair
loop raise `TypeError` before any write.  Otherwise the result is the
new file-system state, the returned document and the dialogs shown. -/
def load_summary_data (fs : FS) (readFails : Bool) :
    Option (FS × Obj × List Msg) :=
  match fs.primary with
  | none =>
      some ({ fs with primary := some (.json (.obj DEFAULT_SUMMARY)) },
            DEFAULT_SUMMARY, [.fileCreated])
  | some content =>
      if readFails then some (fs, DEFAULT_SUMMARY, [.fileReadError])
      else
        match content with
        | .corrupt =>
            some ({ fs with primary := some (.json (.obj DEFAULT_SUMMARY)) },
                  DEFAULT_SUMMARY, [.corruptedReplaced])
        | .json (.obj kvs) =>
            if (repairDoc kvs).2.2 then
              some ({ fs with primary := some (.json (.obj (repairDoc kvs).1)) },
                    (repairDoc kvs).1, [.repairsMade (repairDoc kvs).2.1])
            else some (fs, (repairDoc kvs).1, [])
        | .json _ => none

/-! ### Save (`save_summary_data`, lines 111-130) -/

/-- Outcome of the guarded write of lines 119-124: it can succeed, fail
with the file untouched (`open` itself raised, e.g. a permission
error), or fail after `open(path, "w")` already truncated the file
(`json.dump` raised mid-write, leaving text that does not parse). -/
inductive WriteOutcome where
  | ok
  | failNoWrite
  | failCorrupt
deriving DecidableEq, Repr

/-- `save_summary_data(data)` (lines 111-130): best-effort copy of the
primary file to the backup path (failure swallowed when `copyFails`),
then the guarded write, then — only on a successful write — best-effort
deletion of the backup (failure swallowed when `deleteFails`).  Returns
the new file-system state, the boolean result, and the dialogs shown. -/
def save_summary_data (fs : FS) (data : Obj)
    (copyFails deleteFails : Bool) (w : WriteOutcome) :
    FS × Bool × List Msg :=
  let fs1 : FS :=
    match fs.primary with
    | some p => if copyFails then fs else { fs with backup := some p }
    | none => fs
  match w with
  | .ok =>
      let fs2 : FS := { fs1 with primary := some (.json (.obj data)) }
      let fs3 : FS :=
        if fs2.backup.isSome && !deleteFails then { fs2 with backup := none }
        else fs2
      (fs3, true, [])
  | .failNoWrite => (fs1, false, [.saveError backupFileName])
  | .failCorrupt =>
      ({ fs1 with primary := some .corrupt }, false, [.saveError backupFileName])

/-! ### Input validation (`validate_number`, lines 137-147) -/

/-- The message of line 144 (shown for text `float()` cannot parse). -/
def invalidNumberMsg : String :=
  "Number is invalid or input was not a number.\nExample: 500; 503.81\nNo Symbols."

/-- Result of `validate_number`: the pair `(False, message)` or
`(True, value)`. -/
inductive VResult where
  | invalid (msg : String)
  | valid (v : PyFloat)
deriving DecidableEq, Repr

/-- `validate_number(txt)` (lines 137-147): strip, reject empty input,
parse with `float`, reject values `<= 0`. -/
def validate_number (txt : String) : VResult :=
  let s := txt.trim
  if s = "" then .invalid "No input provided."
  else
    match floatOfString s with
    | none => .invalid invalidNumberMsg
    | some v =>
        if PyFloat.le v (.finite 0) then .invalid "Value must be greater than 0."
        else .valid v

/-! ### Summary calculation (`calculate_summary`, lines 443-455) -/

/-- `data.get(name, {}).values()` as used on lines 445-446: the value
list of the dict at `name`, `[]` when the key is absent, and `none`
(an uncaught `AttributeError`) when the stored value is not a dict. -/
def sectionValues (data : Obj) (name : String) : Option (List JVal) :=
  match alistGet data name with
  | none => some []
  | some (.obj o) => some (o.map (·.2))
  | some _ => none

/-- `sum(float(v) for v in vs)`: Python `sum` starts from `0` and adds
left to right; `none` when some `float(v)` raises. -/
def sumFloats (vs : List JVal) : Option PyFloat :=
  vs.foldl
    (fun acc v =>
      match acc, pyFloatOfJVal v with
      | some a, some x => some (PyFloat.add a x)
      | _, _ => none)
    (some (.finite 0))

/-- The dict returned by `calculate_summary` on lines 449-455.  The
`income` and `expenses` fields hold `data.get(..., {})`, the raw stored
value. -/
structure Report where
  total_income : PyFloat
  total_expenses : PyFloat
  net_balance : PyFloat
  income : JVal
  expenses : JVal

/-- `calculate_summary()` (lines 443-455): load, total each top-level
mapping, return `None` when both totals compare equal to `0`, else the
report.  The outer `none` is an uncaught exception (from the load or
from a `float(v)` in the sums). -/
def calculate_summary (fs : FS) (readFails : Bool) :
    Option (FS × Option Report × List Msg) :=
  match load_summary_data fs readFails with
  | none => none
  | some (fs1, data, msgs) =>
      match sectionValues data "income", sectionValues data "expenses" with
      | some iv, some ev =>
          match sumFloats iv, sumFloats ev with
          | some ti, some te =>
              if ti.eqZero && te.eqZero then some (fs1, none, msgs)
              else
                some (fs1,
                      some { total_income := ti, total_expenses := te,
                             net_balance := PyFloat.sub ti te,
                             income := (alistGet data "income").getD (.obj []),
                             expenses := (alistGet data "expenses").getD (.obj []) },
                      msgs)
          | _, _ => none
      | _, _ => none

/-! ### The submit handlers (lines 387-411) -/

/-- What a submit handler does apart from changing the files: reject the
input, raise an uncaught exception, fail to save, or succeed (on
success the source clears the entry and navigates home). -/
inductive SubmitOutcome where
  | invalidInput (msg : String)
  | crash
  | saveFailed
  | success
deriving DecidableEq, Repr

/-- Python `x + val` for a stored value `x` and a float `val`: defined
for numbers and booleans, a `TypeError` otherwise. -/
def pyNumLike : JVal → Option PyFloat
  | .num x => some x
  | .bool b => some (.finite (if b then 1 else 0))
  | _ => none

/-- The failure switches threaded through one submit operation. -/
structure IOEnv where
  readFails : Bool
  copyFails : Bool
  deleteFails : Bool
  write : WriteOutcome

/-- The shared shape of `_submit_income` / `_submit_expense`
(lines 387-411), parameterised by the top-level key: validate the
entry text, load, `data[name][cat] += val`, save.  `crash` covers the
uncaught `TypeError` / `KeyError` paths of the `+=` line. -/
def submitTo (name : String) (entry cat : String) (fs : FS) (env : IOEnv) :
    FS × SubmitOutcome :=
  match validate_number entry with
  | .invalid m => (fs, .invalidInput m)
  | .valid v =>
      match load_summary_data fs env.readFails with
      | none => (fs, .crash)
      | some (fs1, data, _) =>
          match alistGet data name with
          | some (.obj sec) =>
              match alistGet sec cat with
              | some old =>
                  match pyNumLike old with
                  | some x =>
                      let data2 :=
                        alistSet data name (.obj (alistSet sec cat (.num (PyFloat.add x v))))
                      let r :=
                        save_summary_data fs1 data2 env.copyFails env.deleteFails env.write
                      (r.1, if r.2.1 then .success else .saveFailed)
                  | none => (fs1, .crash)
              | none => (fs1, .crash)
          | _ => (fs1, .crash)

/-- `PFTrackerApp._submit_income` (lines 387-398), store effects only. -/
def submit_income (entry cat : String) (fs : FS) (env : IOEnv) : FS × SubmitOutcome :=
  submitTo "income" entry cat fs env

/-- `PFTrackerApp._submit_expense` (lines 400-411), store effects only. -/
def submit_expense (entry cat : String) (fs : FS) (env : IOEnv) : FS × SubmitOutcome :=
  submitTo "expenses" entry cat fs env

/-- Lookup of one category inside one top-level mapping of a document. -/
def sectionGet (data : Obj) (name cat : String) : Option JVal :=
  match alistGet data name with
  | some (.obj o) => alistGet o cat
  | _ => none

/-! ### Dictionary lemmas -/

@[simp] theorem alistGet_set_self (o : Obj) (k : String) (v : JVal) :
    alistGet (alistSet o k v) k = some v := by
  induction o with
  | nil => simp [alistSet, alistGet]
  | cons hd tl ih =>
      obtain ⟨k1, v1⟩ := hd
      by_cases h : k1 = k <;> simp [alistSet, alistGet, h, ih]

theorem alistGet_set_ne (o : Obj) (k k2 : String) (v : JVal) (h : k2 ≠ k) :
    alistGet (alistSet o k v) k2 = alistGet o k2 := by
  induction o with
  | nil =>
      simp only [alistSet, alistGet]
      rw [if_neg fun hh : k = k2 => h hh.symm]
  | cons hd tl ih =>
      obtain ⟨k1, v1⟩ := hd
      simp only [alistSet]
      by_cases h1 : k1 = k
      · rw [if_pos h1]
        have hne : ¬k1 = k2 := fun hh => h (hh ▸ h1)
        simp only [alistGet]
        rw [if_neg hne, if_neg hne]
      · rw [if_neg h1]
        simp only [alistGet]
        by_cases h2 : k1 = k2 <;> simp [h2, ih]

theorem alistSet_get_self (o : Obj) (k : String) (v : JVal)
    (h : alistGet o k = some v) : alistSet o k v = o := by
  induction o with
  | nil => simp [alistGet] at h
  | cons hd tl ih =>
      obtain ⟨k1, v1⟩ := hd
      by_cases h1 : k1 = k
      · subst h1
        simp [alistGet] at h
        simp [alistSet, h]
      · simp [alistGet, h1] at h
        simp [alistSet, h1, ih h]

/-- Every key of a fresh all-zero dict is mapped to the number 0. -/
theorem alistGet_zeros (e : List String) (c : String) (hc : c ∈ e) :
    alistGet (e.map fun k => (k, JVal.num (.finite 0))) c = some (.num (.finite 0)) := by
  induction e with
  | nil => cases hc
  | cons hd tl ih =>
      cases hc with
      | head => simp [alistGet]
      | tail _ h =>
          by_cases hh : hd = c
          · simp [alistGet, hh]
          · simp [alistGet, hh, ih h]

/-! ### Repair lemmas -/

/-- The loop iteration binds the category it treats to a number. -/
theorem repairStep_get_self (name cat : String) (sec : Obj) :
    ∃ y, alistGet (repairStep name cat sec).1 cat = some (.num y) := by
  cases hm : pyFloatOfJVal ((alistGet (repairBase cat sec) cat).getD .null) with
  | none => exact ⟨.finite 0, by simp [repairStep, hm, alistGet_set_self]⟩
  | some y => exact ⟨y, by simp [repairStep, hm, alistGet_set_self]⟩

/-- The loop iteration changes no key but the one it treats. -/
theorem repairStep_get_ne (name cat k : String) (sec : Obj) (h : k ≠ cat) :
    alistGet (repairStep name cat sec).1 k = alistGet sec k := by
  have hbase : alistGet (repairBase cat sec) k = alistGet sec k := by
    unfold repairBase
    by_cases hb : alistHas sec cat <;> simp [hb, alistGet_set_ne _ _ _ _ h]
  cases hm : pyFloatOfJVal ((alistGet (repairBase cat sec) cat).getD .null) with
  | none => simp [repairStep, hm, alistGet_set_ne _ _ _ _ h, hbase]
  | some y => simp [repairStep, hm, alistGet_set_ne _ _ _ _ h, hbase]

/-- On a category already bound to a number the iteration is the
identity and flags nothing. -/
theorem repairStep_noop (name cat : String) (sec : Obj) (x : PyFloat)
    (hx : alistGet sec cat = some (.num x)) :
    repairStep name cat sec = (sec, [], false) := by
  have hhas : alistHas sec cat = true := by simp [alistHas, hx]
  have hbase : repairBase cat sec = sec := by simp [repairBase, hhas]
  have hm : pyFloatOfJVal ((alistGet sec cat).getD .null) = some x := by
    rw [hx]; rfl
  simp only [repairStep, hbase, hm, hhas, Bool.not_true, if_true]
  rw [alistSet_get_self _ _ _ hx]

/-- Numeric bindings survive the rest of the per-category loop. -/
theorem repairCats_num_preserved (name : String) (e : List String) :
    ∀ (sec : Obj) (k : String) (x : PyFloat),
      alistGet sec k = some (.num x) →
      ∃ y, alistGet (repairCats name sec e).1 k = some (.num y) := by
  induction e with
  | nil => intro sec k x h; exact ⟨x, h⟩
  | cons cat rest ih =>
      intro sec k x h
      simp only [repairCats]
      by_cases hk : k = cat
      · subst hk
        obtain ⟨y, hy⟩ := repairStep_get_self name k sec
        exact ih _ k y hy
      · exact ih _ k x (by rw [repairStep_get_ne name cat k sec hk]; exact h)

/-- After the per-category loop, every expected category is bound to a
number. -/
theorem repairCats_allNums (name : String) (e : List String) :
    ∀ (sec : Obj) (c : String), c ∈ e →
      ∃ y, alistGet (repairCats name sec e).1 c = some (.num y) := by
  induction e with
  | nil => intro sec c hc; cases hc
  | cons cat rest ih =>
      intro sec c hc
      simp only [repairCats]
      by_cases hk : c = cat
      · subst hk
        obtain ⟨y, hy⟩ := repairStep_get_self name c sec
        exact repairCats_num_preserved name rest _ c y hy
      · have h : c ∈ rest := by
          cases hc with
          | head => exact absurd rfl hk
          | tail _ h => exact h
        exact ih _ c h

/-- On a dict whose expected categories are all already numbers, the
per-category loop is the identity and flags nothing. -/
theorem repairCats_noop (name : String) (e : List String) :
    ∀ sec : Obj, (∀ c ∈ e, ∃ x, alistGet sec c = some (.num x)) →
      repairCats name sec e = (sec, [], false) := by
  induction e with
  | nil => intro sec _; rfl
  | cons cat rest ih =>
      intro sec hall
      obtain ⟨x, hx⟩ := hall cat (by simp)
      simp only [repairCats, repairStep_noop name cat sec x hx]
      rw [ih sec fun c hc => hall c (by simp [hc])]
      rfl

/-- After `repairSub`, the treated top-level key is a dict binding every
expected category to a number. -/
theorem repairSub_get_self (data : Obj) (name : String) (e : List String) :
    ∃ s2, alistGet (repairSub data name e).1 name = some (.obj s2) ∧
      ∀ c ∈ e, ∃ y, alistGet s2 c = some (.num y) := by
  cases hg : alistGet data name with
  | none =>
      refine ⟨e.map fun c => (c, .num (.finite 0)), ?_, ?_⟩
      · simp [repairSub, hg, alistGet_set_self]
      · intro c hc; exact ⟨.finite 0, alistGet_zeros e c hc⟩
  | some v =>
      cases v with
      | obj sec =>
          refine ⟨(repairCats name sec e).1, ?_, ?_⟩
          · simp [repairSub, hg, alistGet_set_self]
          · intro c hc; exact repairCats_allNums name e sec c hc
      | num x =>
          refine ⟨e.map fun c => (c, .num (.finite 0)), by simp [repairSub, hg, alistGet_set_self], ?_⟩
          intro c hc; exact ⟨.finite 0, alistGet_zeros e c hc⟩
      | str s =>
          refine ⟨e.map fun c => (c, .num (.finite 0)), by simp [repairSub, hg, alistGet_set_self], ?_⟩
          intro c hc; exact ⟨.finite 0, alistGet_zeros e c hc⟩
      | bool b =>
          refine ⟨e.map fun c => (c, .num (.finite 0)), by simp [repairSub, hg, alistGet_set_self], ?_⟩
          intro c hc; exact ⟨.finite 0, alistGet_zeros e c hc⟩
      | null =>
          refine ⟨e.map fun c => (c, .num (.finite 0)), by simp [repairSub, hg, alistGet_set_self], ?_⟩
          intro c hc; exact ⟨.finite 0, alistGet_zeros e c hc⟩
      | arr xs =>
          refine ⟨e.map fun c => (c, .num (.finite 0)), by simp [repairSub, hg, alistGet_set_self], ?_⟩
          intro c hc; exact ⟨.finite 0, alistGet_zeros e c hc⟩

/-- `repairSub` changes no top-level key but the one it treats. -/
theorem repairSub_get_ne (data : Obj) (name k : String) (e : List String)
    (h : k ≠ name) :
    alistGet (repairSub data name e).1 k = alistGet data k := by
  cases hg : alistGet data name with
  | none => simp [repairSub, hg, alistGet_set_ne _ _ _ _ h]
  | some v => cases v <;> simp [repairSub, hg, alistGet_set_ne _ _ _ _ h]

/-- On a document whose treated key is already a dict with all expected
categories numeric, `repairSub` is the identity and flags nothing. -/
theorem repairSub_noop (data : Obj) (name : String) (e : List String)
    (sec : Obj) (hg : alistGet data name = some (.obj sec))
    (hall : ∀ c ∈ e, ∃ x, alistGet sec c = some (.num x)) :
    repairSub data name e = (data, [], false) := by
  simp only [repairSub, hg, repairCats_noop name e sec hall]
  rw [alistSet_get_self _ _ _ hg]

/-- The two top-level mappings of a repaired document are dicts binding
every registry category to a number. -/
theorem repairDoc_sections (d : Obj) :
    ∃ sI sE,
      alistGet (repairDoc d).1 "income" = some (.obj sI) ∧
      (∀ c ∈ INCOME_CATEGORIES, ∃ y, alistGet sI c = some (.num y)) ∧
      alistGet (repairDoc d).1 "expenses" = some (.obj sE) ∧
      (∀ c ∈ EXPENSE_CATEGORIES, ∃ y, alistGet sE c = some (.num y)) := by
  obtain ⟨sI, hI, hIn⟩ := repairSub_get_self d "income" INCOME_CATEGORIES
  obtain ⟨sE, hE, hEn⟩ :=
    repairSub_get_self (repairSub d "income" INCOME_CATEGORIES).1 "expenses" EXPENSE_CATEGORIES
  refine ⟨sI, sE, ?_, hIn, hE, hEn⟩
  show alistGet (repairSub _ "expenses" EXPENSE_CATEGORIES).1 "income" = _
  rw [repairSub_get_ne _ _ _ _ (by decide)]
  exact hI

/-- Repairing an already-repaired document changes nothing and flags
nothing. -/
theorem repairDoc_idem (d : Obj) :
    repairDoc (repairDoc d).1 = ((repairDoc d).1, [], false) := by
  obtain ⟨sI, sE, hI, hIn, hE, hEn⟩ := repairDoc_sections d
  have h1 : repairSub (repairDoc d).1 "income" INCOME_CATEGORIES = ((repairDoc d).1, [], false) :=
    repairSub_noop _ _ _ sI hI hIn
  have h2 : repairSub (repairDoc d).1 "expenses" EXPENSE_CATEGORIES = ((repairDoc d).1, [], false) :=
    repairSub_noop _ _ _ _ hE hEn
  show ((repairSub (repairSub (repairDoc d).1 "income" INCOME_CATEGORIES).1
          "expenses" EXPENSE_CATEGORIES).1,
        (repairSub (repairDoc d).1 "income" INCOME_CATEGORIES).2.1 ++
          (repairSub (repairSub (repairDoc d).1 "income" INCOME_CATEGORIES).1
            "expenses" EXPENSE_CATEGORIES).2.1,
        (repairSub (repairDoc d).1 "income" INCOME_CATEGORIES).2.2 ||
          (repairSub (repairSub (repairDoc d).1 "income" INCOME_CATEGORIES).1
            "expenses" EXPENSE_CATEGORIES).2.2)
      = ((repairDoc d).1, [], false)
  rw [h1]
  show ((repairSub (repairDoc d).1 "expenses" EXPENSE_CATEGORIES).1,
        [] ++ (repairSub (repairDoc d).1 "expenses" EXPENSE_CATEGORIES).2.1,
        false || (repairSub (repairDoc d).1 "expenses" EXPENSE_CATEGORIES).2.2)
      = ((repairDoc d).1, [], false)
  rw [h2]
  rfl

/-- The default document needs no repair. -/
theorem repairDoc_default : repairDoc DEFAULT_SUMMARY = (DEFAULT_SUMMARY, [], false) := by
  with_unfolding_all rfl

/-- Every successful load returns a document of repaired shape. -/
theorem load_doc_shape (fs : FS) (fs1 : FS) (d : Obj) (m : List Msg)
    (h : load_summary_data fs false = some (fs1, d, m)) :
    ∃ kvs, d = (repairDoc kvs).1 := by
  obtain ⟨p, bk⟩ := fs
  cases p with
  | none =>
      refine ⟨DEFAULT_SUMMARY, ?_⟩
      simp only [load_summary_data, Option.some.injEq, Prod.mk.injEq] at h
      rw [← h.2.1, repairDoc_default]
  | some content =>
      cases content with
      | corrupt =>
          refine ⟨DEFAULT_SUMMARY, ?_⟩
          simp only [load_summary_data, Bool.false_eq_true, if_false,
            Option.some.injEq, Prod.mk.injEq] at h
          rw [← h.2.1, repairDoc_default]
      | json v =>
          cases v with
          | obj kvs =>
              refine ⟨kvs, ?_⟩
              simp only [load_summary_data, Bool.false_eq_true, if_false] at h
              split at h <;>
                simp only [Option.some.injEq, Prod.mk.injEq] at h <;>
                exact h.2.1.symm
          | num x => simp [load_summary_data] at h
          | str s => simp [load_summary_data] at h
          | bool b => simp [load_summary_data] at h
          | null => simp [load_summary_data] at h
          | arr xs => simp [load_summary_data] at h

/-- A second load of whatever a successful load leaves on disk returns
the very same document and makes no further repair. -/
theorem load_stable (fs fs1 : FS) (d : Obj) (m : List Msg) (b : Option FileData)
    (h : load_summary_data fs false = some (fs1, d, m)) :
    load_summary_data ⟨fs1.primary, b⟩ false = some (⟨fs1.primary, b⟩, d, []) := by
  obtain ⟨p, bk⟩ := fs
  cases p with
  | none =>
      simp only [load_summary_data, Option.some.injEq, Prod.mk.injEq] at h
      obtain ⟨hfs, hd, -⟩ := h
      subst hfs
      subst hd
      simp [load_summary_data, repairDoc_default]
  | some content =>
      cases content with
      | corrupt =>
          simp only [load_summary_data, Bool.false_eq_true, if_false,
            Option.some.injEq, Prod.mk.injEq] at h
          obtain ⟨hfs, hd, -⟩ := h
          subst hfs
          subst hd
          simp [load_summary_data, repairDoc_default]
      | json v =>
          cases v with
          | obj kvs =>
              simp only [load_summary_data, Bool.false_eq_true, if_false] at h
              split at h
              case isTrue hf =>
                  simp only [Option.some.injEq, Prod.mk.injEq] at h
                  obtain ⟨hfs, hd, -⟩ := h
                  subst hfs
                  subst hd
                  simp [load_summary_data, repairDoc_idem]
              case isFalse hf =>
                  simp only [Option.some.injEq, Prod.mk.injEq] at h
                  obtain ⟨hfs, hd, -⟩ := h
                  subst hfs
                  subst hd
                  simp [load_summary_data, hf]
          | num x => simp [load_summary_data] at h
          | str s => simp [load_summary_data] at h
          | bool b2 => simp [load_summary_data] at h
          | null => simp [load_summary_data] at h
          | arr xs => simp [load_summary_data] at h

/-- After a successful write the primary file holds the saved document,
whatever the copy/delete switches did. -/
theorem save_ok_primary (fs : FS) (data : Obj) (cf df : Bool) :
    (save_summary_data fs data cf df .ok).1.primary = some (.json (.obj data)) := by
  obtain ⟨p, bk⟩ := fs
  cases p with
  | none =>
      by_cases hb : (bk.isSome && !df) = true <;> simp [save_summary_data, hb]
  | some q =>
      by_cases hc : cf
      · by_cases hb : (bk.isSome && !df) = true <;> simp [save_summary_data, hc, hb]
      · by_cases hd : df <;> simp [save_summary_data, hc, hd]

/-- A write failure that never opened the file leaves the primary file
unchanged. -/
theorem save_noWrite_primary (fs : FS) (data : Obj) (cf df : Bool) :
    (save_summary_data fs data cf df .failNoWrite).1.primary = fs.primary := by
  obtain ⟨p, bk⟩ := fs
  cases p with
  | none => rfl
  | some q => by_cases hc : cf <;> simp [save_summary_data, hc]

/-- A write failure after truncation leaves the primary file
undecodable. -/
theorem save_corrupt_primary (fs : FS) (data : Obj) (cf df : Bool) :
    (save_summary_data fs data cf df .failCorrupt).1.primary = some .corrupt := by
  obtain ⟨p, bk⟩ := fs
  cases p with
  | none => rfl
  | some q => by_cases hc : cf <;> simp [save_summary_data, hc]

/-- Loading a repaired document back needs no repair and returns it
unchanged. -/
theorem load_of_repaired (kvs : Obj) (b : Option FileData) :
    load_summary_data ⟨some (.json (.obj (repairDoc kvs).1)), b⟩ false
      = some (⟨some (.json (.obj (repairDoc kvs).1)), b⟩, (repairDoc kvs).1, []) := by
  simp [load_summary_data, repairDoc_idem]

/-- A validated finite value is strictly positive. -/
theorem validate_finite_pos (s : String) (v : ℚ)
    (h : validate_number s = .valid (.finite v)) : 0 < v := by
  by_contra hle
  push_neg at hle
  unfold validate_number at h
  by_cases he : s.trim = ""
  · simp [he] at h
  · simp only [he, if_false, if_neg he] at h
    cases hp : floatOfString s.trim with
    | none => rw [hp] at h; exact VResult.noConfusion h
    | some w =>
        rw [hp] at h
        by_cases hw : PyFloat.le w (.finite 0) = true
        · simp [hw] at h
        · simp only [hw] at h
          simp only [Bool.not_eq_true] at hw
          rw [if_neg (by simp [hw])] at h
          cases h
          simp [PyFloat.le, decide_eq_true_eq] at hw
          exact absurd hw (not_lt.mpr hle)

/-- The boolean result of a successful save is `True`. -/
theorem save_ok_flag (fs : FS) (data : Obj) (cf df : Bool) :
    (save_summary_data fs data cf df .ok).2.1 = true := rfl

/-- The boolean result of a save whose write raised before opening. -/
theorem save_noWrite_flag (fs : FS) (data : Obj) (cf df : Bool) :
    (save_summary_data fs data cf df .failNoWrite).2.1 = false := rfl

/-- The boolean result of a save whose write raised after truncating. -/
theorem save_corrupt_flag (fs : FS) (data : Obj) (cf df : Bool) :
    (save_summary_data fs data cf df .failCorrupt).2.1 = false := rfl

/-- A corrupt primary file is replaced by the default document. -/
theorem load_corrupt_eq (b : Option FileData) :
    load_summary_data ⟨some .corrupt, b⟩ false
      = some (⟨some (.json (.obj DEFAULT_SUMMARY)), b⟩, DEFAULT_SUMMARY,
              [.corruptedReplaced]) := rfl

/-- Every income category of the default document is 0.0. -/
theorem default_income_zero (cat : String) (h : cat ∈ INCOME_CATEGORIES) :
    sectionGet DEFAULT_SUMMARY "income" cat = some (.num (.finite 0)) := by
  have hg : alistGet DEFAULT_SUMMARY "income"
      = some (.obj (INCOME_CATEGORIES.map fun c => (c, .num (.finite 0)))) := rfl
  simp [sectionGet, hg, alistGet_zeros INCOME_CATEGORIES cat h]

/-! ### Concrete fixtures used by the claim theorems -/

/-- A file system whose summary file holds the default document. -/
def fsDefault : FS := { primary := some (.json (.obj DEFAULT_SUMMARY)), backup := none }

/-- The failure-free I/O environment. -/
def envOk : IOEnv := { readFails := false, copyFails := false, deleteFails := false, write := .ok }

/-- A parseable summary document missing the `expenses` key, missing
most income categories, and storing the string `"inf"` for `Salary`. -/
def infFile : Obj := [("income", .obj [("Salary", .str "inf")])]

/-- A file system whose summary file holds `infFile`. -/
def fsInf : FS := { primary := some (.json (.obj infFile)), backup := none }

/-- A well-formed document with `Salary` at 5.0 and all else 0.0. -/
def fiveDoc : Obj :=
  [("income", .obj [("Salary", .num (.finite 5)), ("Gift", .num (.finite 0)),
     ("Investment", .num (.finite 0)), ("Other", .num (.finite 0))]),
   ("expenses", .obj (EXPENSE_CATEGORIES.map fun c => (c, .num (.finite 0))))]

/-- A file system whose summary file holds `fiveDoc`. -/
def fsFive : FS := { primary := some (.json (.obj fiveDoc)), backup := none }

/-- The default document with 200.0 for `Salary`. -/
def doc200 : Obj :=
  [("income", .obj [("Salary", .num (.finite 200)), ("Gift", .num (.finite 0)),
     ("Investment", .num (.finite 0)), ("Other", .num (.finite 0))]),
   ("expenses", .obj (EXPENSE_CATEGORIES.map fun c => (c, .num (.finite 0))))]

/-- A summary file holding parseable JSON that is not an object. -/
def arrFile : JVal := .arr [.num (.finite 1), .num (.finite 2)]

/-! ### Claim theorems -/

/-- C3: `validate_number` trims whitespace and returns: invalid with
message "No input provided." for empty or all-whitespace input; invalid
for input `float()` cannot parse; invalid with message "Value must be
greater than 0." for parsed values at most zero; and valid with the
parsed value otherwise — with the six boundary examples of the spec. -/
theorem validate_number_spec :
    (∀ s : String, s.trim = "" → validate_number s = .invalid "No input provided.") ∧
    (∀ s : String, s.trim ≠ "" → floatOfString s.trim = none →
        validate_number s = .invalid invalidNumberMsg) ∧
    (∀ (s : String) (v : PyFloat), floatOfString s.trim = some v →
        PyFloat.le v (.finite 0) = true →
        validate_number s = .invalid "Value must be greater than 0.") ∧
    (∀ (s : String) (v : PyFloat), floatOfString s.trim = some v →
        PyFloat.le v (.finite 0) = false → validate_number s = .valid v) ∧
    validate_number "0" = .invalid "Value must be greater than 0." ∧
    validate_number "0.01" = .valid (.finite (1/100)) ∧
    validate_number "" = .invalid "No input provided." ∧
    validate_number "-5" = .invalid "Value must be greater than 0." ∧
    validate_number "abc" = .invalid invalidNumberMsg ∧
    validate_number " 500 " = .valid (.finite 500) := by
  refine ⟨?_, ?_, ?_, ?_, ?_, ?_, ?_, ?_, ?_, ?_⟩
  · intro s h; simp [validate_number, h]
  · intro s h1 h2; simp [validate_number, h1, h2]
  · intro s v h1 h2
    have hne : ¬s.trim = "" := by
      intro he
      have h0 : floatOfString "" = none := by with_unfolding_all rfl
      rw [he, h0] at h1
      exact Option.noConfusion h1
    simp [validate_number, hne, h1, h2]
  · intro s v h1 h2
    have hne : ¬s.trim = "" := by
      intro he
      have h0 : floatOfString "" = none := by with_unfolding_all rfl
      rw [he, h0] at h1
      exact Option.noConfusion h1
    simp [validate_number, hne, h1, h2]
  · with_unfolding_all rfl
  · with_unfolding_all rfl
  · with_unfolding_all rfl
  · with_unfolding_all rfl
  · with_unfolding_all rfl
  · with_unfolding_all rfl

/-- C3 witness: the general clauses applied at the concrete input
`" 500 "`, whose trimmed text parses to the positive value 500. -/
theorem validate_number_spec_witness :
    validate_number " 500 " = .valid (.finite 500) :=
  validate_number_spec.2.2.2.1 " 500 " (.finite 500)
    (by with_unfolding_all rfl) (by with_unfolding_all rfl)

/-- C10: the validator accepts non-finite inputs: `"inf"` and `"nan"`
validate successfully (for `"nan"` because `nan <= 0` is false), so the
accepted value is not guaranteed finite. -/
theorem validate_number_nonfinite :
    validate_number "inf" = .valid .inf ∧
    validate_number "nan" = .valid .nan ∧
    PyFloat.le .nan (.finite 0) = false ∧
    PyFloat.isFinite .inf = false ∧
    PyFloat.isFinite .nan = false :=
  ⟨by with_unfolding_all rfl, by with_unfolding_all rfl, rfl, rfl, rfl⟩

/-- C7: loading with no summary file present writes the all-zero
default document, reports the informational file-created dialog, and
returns a document with every registry category at 0.0 in both
mappings. -/
theorem load_creates_default :
    (∀ (b : Option FileData) (rf : Bool),
        load_summary_data ⟨none, b⟩ rf
          = some (⟨some (.json (.obj DEFAULT_SUMMARY)), b⟩, DEFAULT_SUMMARY,
                  [.fileCreated])) ∧
    DEFAULT_SUMMARY =
      [("income", .obj [("Salary", .num (.finite 0)), ("Gift", .num (.finite 0)),
         ("Investment", .num (.finite 0)), ("Other", .num (.finite 0))]),
       ("expenses", .obj [("Food", .num (.finite 0)), ("Housing", .num (.finite 0)),
         ("Transportation", .num (.finite 0)), ("Entertainment", .num (.finite 0)),
         ("Health", .num (.finite 0)), ("Education", .num (.finite 0)),
         ("Other", .num (.finite 0))])] :=
  ⟨fun _ _ => rfl, rfl⟩

/-- C5: `save_summary_data` copies the existing primary file to the
backup path before writing (the failed-write outcomes expose the copy),
swallows copy failures, deletes the backup and returns success after a
successful write, swallows delete failures, and on a failed write
returns failure reporting an error that names the backup file. -/
theorem save_backup_contract :
    (∀ (p : FileData) (b : Option FileData) (data : Obj) (df : Bool),
        save_summary_data ⟨some p, b⟩ data false df .failNoWrite
          = (⟨some p, some p⟩, false, [.saveError backupFileName])) ∧
    (∀ (p : FileData) (b : Option FileData) (data : Obj) (df : Bool),
        save_summary_data ⟨some p, b⟩ data false df .failCorrupt
          = (⟨some .corrupt, some p⟩, false, [.saveError backupFileName])) ∧
    (∀ (fs : FS) (data : Obj) (cf df : Bool),
        (save_summary_data fs data cf df .failNoWrite).2
          = (false, [.saveError backupFileName])) ∧
    (∀ (p : FileData) (b : Option FileData) (data : Obj),
        save_summary_data ⟨some p, b⟩ data false false .ok
          = (⟨some (.json (.obj data)), none⟩, true, [])) ∧
    (∀ (p : FileData) (b : Option FileData) (data : Obj),
        save_summary_data ⟨some p, b⟩ data false true .ok
          = (⟨some (.json (.obj data)), some p⟩, true, [])) ∧
    (∀ (p : FileData) (b : Option FileData) (data : Obj) (df : Bool),
        (save_summary_data ⟨some p, b⟩ data true df .ok).2.1 = true) ∧
    backupFileName = SUMMARY_FILENAME ++ BACKUP_SUFFIX :=
  ⟨fun _ _ _ _ => rfl, fun _ _ _ _ => rfl, fun _ _ _ _ => rfl,
   fun _ _ _ => rfl, fun _ _ _ => rfl, fun _ _ _ _ => rfl, rfl⟩

/-- C8 counterexample: the file `[1, 2]` parses as JSON but is not a
valid document, yet `load_summary_data` raises an uncaught `TypeError`
(result `none`) instead of replacing the file with the default and
returning it. -/
theorem load_nonobject_counterexample :
    load_summary_data ⟨some (.json arrFile), none⟩ false = none := rfl

/-- C8 amended: for every existing file whose contents are not
parseable as JSON, `load_summary_data` replaces the file with the
all-zero default, signals the corrupted-file-replaced dialog, and
returns the default (a file parseable as JSON but holding a non-object
instead raises an uncaught error). -/
theorem load_replaces_undecodable :
    ∀ b : Option FileData,
      load_summary_data ⟨some .corrupt, b⟩ false
        = some (⟨some (.json (.obj DEFAULT_SUMMARY)), b⟩, DEFAULT_SUMMARY,
                [.corruptedReplaced]) :=
  fun _ => rfl

/-- C1 counterexample: `infFile` parses as JSON and is missing the
`expenses` key and most income categories, so the claim applies to it;
yet the document `load_summary_data` returns maps `Salary` to the
non-finite value `inf`, because `float("inf")` succeeds and the repair
loop keeps whatever `float` returns. -/
theorem load_repair_counterexample :
    alistHas infFile "expenses" = false ∧
    (load_summary_data fsInf false).map (fun r => sectionGet r.2.1 "income" "Salary")
      = some (some (.num .inf)) ∧
    PyFloat.isFinite .inf = false :=
  ⟨rfl, by with_unfolding_all rfl, rfl⟩

/-- C1 amended: for every persisted file that parses as a JSON object
and is flagged for repair (missing section, missing category key, or
value `float()` cannot convert), `load_summary_data` returns a document
mapping every registry category in both mappings to a numeric value —
not necessarily a finite one, since stored non-finite numbers and
strings such as `"inf"` or `"nan"` convert successfully — and persists
that repaired document back to the file, reporting the repairs made. -/
theorem load_repairs_to_numeric (kvs : Obj) (b : Option FileData)
    (fs1 : FS) (d : Obj) (m : List Msg)
    (hrep : (repairDoc kvs).2.2 = true)
    (h : load_summary_data ⟨some (.json (.obj kvs)), b⟩ false = some (fs1, d, m)) :
    fs1.primary = some (.json (.obj d)) ∧
    m = [.repairsMade (repairDoc kvs).2.1] ∧
    (∀ c ∈ INCOME_CATEGORIES, ∃ y, sectionGet d "income" c = some (.num y)) ∧
    (∀ c ∈ EXPENSE_CATEGORIES, ∃ y, sectionGet d "expenses" c = some (.num y)) := by
  simp only [load_summary_data, Bool.false_eq_true, if_false, hrep, if_true,
    Option.some.injEq, Prod.mk.injEq] at h
  obtain ⟨hfs, hd, hm⟩ := h
  obtain ⟨sI, sE, hI, hIn, hE, hEn⟩ := repairDoc_sections kvs
  subst hd
  refine ⟨hfs ▸ rfl, hm.symm, ?_, ?_⟩
  · intro c hc
    obtain ⟨y, hy⟩ := hIn c hc
    exact ⟨y, by simp [sectionGet, hI, hy]⟩
  · intro c hc
    obtain ⟨y, hy⟩ := hEn c hc
    exact ⟨y, by simp [sectionGet, hE, hy]⟩

/-- C1 witness: the amended theorem applied to the concrete file
`infFile`, which is flagged for repair. -/
theorem load_repairs_to_numeric_witness :
    (⟨some (.json (.obj (repairDoc infFile).1)), none⟩ : FS).primary
      = some (.json (.obj (repairDoc infFile).1)) ∧
    (∀ c ∈ INCOME_CATEGORIES, ∃ y, sectionGet (repairDoc infFile).1 "income" c = some (.num y)) :=
  have h := load_repairs_to_numeric infFile none
    ⟨some (.json (.obj (repairDoc infFile).1)), none⟩ (repairDoc infFile).1
    [.repairsMade (repairDoc infFile).2.1]
    (by with_unfolding_all rfl) (by with_unfolding_all rfl)
  ⟨h.1, h.2.2.1⟩

/-- C2: `calculate_summary` returns the no-data signal exactly when the
income total and the expense total of the loaded document both compare
equal to zero; otherwise it returns a report whose `net_balance` is
`total_income - total_expenses` together with the stored per-category
income and expense mappings. -/
theorem calculate_summary_spec (fs : FS) (rf : Bool) (fs1 : FS) (data : Obj)
    (msgs : List Msg) (iv ev : List JVal) (ti te : PyFloat)
    (hl : load_summary_data fs rf = some (fs1, data, msgs))
    (hiv : sectionValues data "income" = some iv)
    (hev : sectionValues data "expenses" = some ev)
    (hti : sumFloats iv = some ti) (hte : sumFloats ev = some te) :
    ((calculate_summary fs rf = some (fs1, none, msgs))
        ↔ (ti.eqZero = true ∧ te.eqZero = true)) ∧
    (¬(ti.eqZero = true ∧ te.eqZero = true) →
        calculate_summary fs rf
          = some (fs1,
              some { total_income := ti, total_expenses := te,
                     net_balance := PyFloat.sub ti te,
                     income := (alistGet data "income").getD (.obj []),
                     expenses := (alistGet data "expenses").getD (.obj []) },
              msgs)) := by
  have hcalc : calculate_summary fs rf =
      (if ti.eqZero && te.eqZero then some (fs1, none, msgs)
       else some (fs1,
             some { total_income := ti, total_expenses := te,
                    net_balance := PyFloat.sub ti te,
                    income := (alistGet data "income").getD (.obj []),
                    expenses := (alistGet data "expenses").getD (.obj []) },
             msgs)) := by
    simp [calculate_summary, hl, hiv, hev, hti, hte]
  by_cases hz : (ti.eqZero && te.eqZero) = true
  · rw [hz, if_pos rfl] at hcalc
    constructor
    · exact ⟨fun _ => by simpa [Bool.and_eq_true] using hz,
        fun _ => hcalc⟩
    · intro hcontra
      exact absurd (by simpa [Bool.and_eq_true] using hz) hcontra
  · rw [if_neg hz] at hcalc
    constructor
    · constructor
      · intro hc
        rw [hcalc] at hc
        simp at hc
      · intro hb
        exact absurd (by simp [Bool.and_eq_true, hb.1, hb.2]) hz
    · intro _
      exact hcalc

/-- C2 witness: the theorem applied to the store holding `fiveDoc`,
whose income total 5.0 is nonzero, so a full report is returned. -/
theorem calculate_summary_spec_witness :
    calculate_summary fsFive false
      = some (fsFive,
          some { total_income := .finite 5, total_expenses := .finite 0,
                 net_balance := PyFloat.sub (.finite 5) (.finite 0),
                 income := (alistGet fiveDoc "income").getD (.obj []),
                 expenses := (alistGet fiveDoc "expenses").getD (.obj []) },
          []) :=
  (calculate_summary_spec fsFive false fsFive fiveDoc [] _ _ (.finite 5) (.finite 0)
      (by with_unfolding_all rfl) (by with_unfolding_all rfl)
      (by with_unfolding_all rfl) (by with_unfolding_all rfl)
      (by with_unfolding_all rfl)).2
    (by intro hb; exact absurd hb.1 (by with_unfolding_all decide))

/-- C4: a successful submit of a validated amount to a selected income
category adds exactly the amount to that category, leaves every other
income category and the whole expense mapping unchanged, and persists
the result; in particular submitting 100.0 to Salary twice against the
zero-initialised store yields Salary at 200.0 with all other categories
still 0.0. -/
theorem submit_income_frame :
    (∀ (entry cat : String) (fs : FS) (cf df : Bool) (v : PyFloat) (fs1 : FS)
        (d : Obj) (m : List Msg) (inc : Obj) (x : PyFloat),
      validate_number entry = .valid v →
      load_summary_data fs false = some (fs1, d, m) →
      alistGet d "income" = some (.obj inc) →
      alistGet inc cat = some (.num x) →
      (submit_income entry cat fs ⟨false, cf, df, .ok⟩).2 = .success ∧
      (submit_income entry cat fs ⟨false, cf, df, .ok⟩).1.primary
        = some (.json (.obj (alistSet d "income"
            (.obj (alistSet inc cat (.num (PyFloat.add x v))))))) ∧
      sectionGet (alistSet d "income" (.obj (alistSet inc cat (.num (PyFloat.add x v)))))
          "income" cat = some (.num (PyFloat.add x v)) ∧
      (∀ c, c ≠ cat →
        sectionGet (alistSet d "income" (.obj (alistSet inc cat (.num (PyFloat.add x v)))))
            "income" c = alistGet inc c) ∧
      alistGet (alistSet d "income" (.obj (alistSet inc cat (.num (PyFloat.add x v)))))
          "expenses" = alistGet d "expenses") ∧
    (∀ (entry cat : String) (fs : FS) (cf df : Bool) (v : PyFloat) (fs1 : FS)
        (d : Obj) (m : List Msg) (exp : Obj) (x : PyFloat),
      validate_number entry = .valid v →
      load_summary_data fs false = some (fs1, d, m) →
      alistGet d "expenses" = some (.obj exp) →
      alistGet exp cat = some (.num x) →
      (submit_expense entry cat fs ⟨false, cf, df, .ok⟩).2 = .success ∧
      (submit_expense entry cat fs ⟨false, cf, df, .ok⟩).1.primary
        = some (.json (.obj (alistSet d "expenses"
            (.obj (alistSet exp cat (.num (PyFloat.add x v))))))) ∧
      sectionGet (alistSet d "expenses" (.obj (alistSet exp cat (.num (PyFloat.add x v)))))
          "expenses" cat = some (.num (PyFloat.add x v)) ∧
      (∀ c, c ≠ cat →
        sectionGet (alistSet d "expenses" (.obj (alistSet exp cat (.num (PyFloat.add x v)))))
            "expenses" c = alistGet exp c) ∧
      alistGet (alistSet d "expenses" (.obj (alistSet exp cat (.num (PyFloat.add x v)))))
          "income" = alistGet d "income") ∧
    ((submit_income "100.0" "Salary" fsDefault envOk).2 = .success ∧
     (submit_income "100.0" "Salary"
        (submit_income "100.0" "Salary" fsDefault envOk).1 envOk).2 = .success ∧
     (submit_income "100.0" "Salary"
        (submit_income "100.0" "Salary" fsDefault envOk).1 envOk).1.primary
       = some (.json (.obj doc200))) := by
  refine ⟨?_, ?_, by with_unfolding_all rfl, by with_unfolding_all rfl, by with_unfolding_all rfl⟩
  · intro entry cat fs cf df v fs1 d m inc x hv hl hsec hcat
    have hsub : submit_income entry cat fs ⟨false, cf, df, .ok⟩
        = ((save_summary_data fs1
              (alistSet d "income" (.obj (alistSet inc cat (.num (PyFloat.add x v)))))
              cf df .ok).1, .success) := by
      simp [submit_income, submitTo, hv, hl, hsec, hcat, pyNumLike, save_ok_flag]
    refine ⟨by rw [hsub], ?_, ?_, ?_, ?_⟩
    · rw [hsub]
      exact save_ok_primary _ _ _ _
    · simp [sectionGet, alistGet_set_self]
    · intro c hc
      simp [sectionGet, alistGet_set_self, alistGet_set_ne inc cat c _ hc]
    · exact alistGet_set_ne d "income" "expenses" _ (by decide)
  · intro entry cat fs cf df v fs1 d m exp x hv hl hsec hcat
    have hsub : submit_expense entry cat fs ⟨false, cf, df, .ok⟩
        = ((save_summary_data fs1
              (alistSet d "expenses" (.obj (alistSet exp cat (.num (PyFloat.add x v)))))
              cf df .ok).1, .success) := by
      simp [submit_expense, submitTo, hv, hl, hsec, hcat, pyNumLike, save_ok_flag]
    refine ⟨by rw [hsub], ?_, ?_, ?_, ?_⟩
    · rw [hsub]
      exact save_ok_primary _ _ _ _
    · simp [sectionGet, alistGet_set_self]
    · intro c hc
      simp [sectionGet, alistGet_set_self, alistGet_set_ne exp cat c _ hc]
    · exact alistGet_set_ne d "expenses" "income" _ (by decide)

/-- C4 witness: the frame theorem applied to the first concrete
submission of 100.0 to Salary against the zero-initialised store. -/
theorem submit_income_frame_witness :
    (submit_income "100.0" "Salary" fsDefault ⟨false, false, false, .ok⟩).2 = .success :=
  (submit_income_frame.1 "100.0" "Salary" fsDefault false false (.finite 100) fsDefault
      DEFAULT_SUMMARY []
      [("Salary", .num (.finite 0)), ("Gift", .num (.finite 0)),
       ("Investment", .num (.finite 0)), ("Other", .num (.finite 0))] (.finite 0)
      (by with_unfolding_all rfl) (by with_unfolding_all rfl)
      (by with_unfolding_all rfl) (by with_unfolding_all rfl)).1

/-- C6 counterexample: with Salary stored at 5.0, a submission of 100
whose write fails after truncating the file reports failure, but the
next load returns the all-zero default — Salary at 0.0 — not the
pre-submission document with Salary at 5.0: the persisted state is not
as if the submission had not happened. -/
theorem save_failure_counterexample :
    (submit_income "100" "Salary" fsFive ⟨false, false, false, .failCorrupt⟩).2
      = .saveFailed ∧
    (load_summary_data
        (submit_income "100" "Salary" fsFive ⟨false, false, false, .failCorrupt⟩).1
        false).map (fun r => sectionGet r.2.1 "income" "Salary")
      = some (some (.num (.finite 0))) ∧
    (load_summary_data fsFive false).map (fun r => sectionGet r.2.1 "income" "Salary")
      = some (some (.num (.finite 5))) ∧
    (JVal.num (.finite 0)) ≠ .num (.finite 5) := by
  refine ⟨by with_unfolding_all rfl, by with_unfolding_all rfl,
    by with_unfolding_all rfl, ?_⟩
  intro h
  have h1 : PyFloat.finite (0 : ℚ) = .finite 5 := by injection h
  have h2 : (0 : ℚ) = 5 := by injection h1
  norm_num at h2

/-- C6 amended: when a save reports failure, the subsequent load does
not show the mutated total: the write either failed without touching
the file, so the next load returns the pre-submission document, or
corrupted it, so the next load returns the all-zero default; in neither
case does the mutated category hold the attempted new total. -/
theorem save_failure_preserves_store (entry cat : String) (fs : FS) (cf df : Bool)
    (v x : ℚ) (fs1 : FS) (d : Obj) (m : List Msg) (inc : Obj)
    (hv : validate_number entry = .valid (.finite v))
    (hl : load_summary_data fs false = some (fs1, d, m))
    (hsec : alistGet d "income" = some (.obj inc))
    (hcat : alistGet inc cat = some (.num (.finite x)))
    (hx : 0 ≤ x) (hmem : cat ∈ INCOME_CATEGORIES) :
    (submit_income entry cat fs ⟨false, cf, df, .failNoWrite⟩).2 = .saveFailed ∧
    (load_summary_data
        (submit_income entry cat fs ⟨false, cf, df, .failNoWrite⟩).1 false).map
      (fun r => sectionGet r.2.1 "income" cat) = some (some (.num (.finite x))) ∧
    (submit_income entry cat fs ⟨false, cf, df, .failCorrupt⟩).2 = .saveFailed ∧
    (load_summary_data
        (submit_income entry cat fs ⟨false, cf, df, .failCorrupt⟩).1 false).map
      (fun r => sectionGet r.2.1 "income" cat) = some (some (.num (.finite 0))) ∧
    (JVal.num (.finite x)) ≠ .num (.finite (x + v)) ∧
    (JVal.num (.finite 0)) ≠ .num (.finite (x + v)) := by
  have hvpos : 0 < v := validate_finite_pos entry v hv
  have hdata2 : ∀ w : WriteOutcome,
      submit_income entry cat fs ⟨false, cf, df, w⟩
        = ((save_summary_data fs1
              (alistSet d "income"
                (.obj (alistSet inc cat (.num (PyFloat.add (.finite x) (.finite v))))))
              cf df w).1,
           if (save_summary_data fs1
              (alistSet d "income"
                (.obj (alistSet inc cat (.num (PyFloat.add (.finite x) (.finite v))))))
              cf df w).2.1 then .success else .saveFailed) := by
    intro w
    simp [submit_income, submitTo, hv, hl, hsec, hcat, pyNumLike]
  refine ⟨?_, ?_, ?_, ?_, ?_, ?_⟩
  · rw [hdata2 .failNoWrite, save_noWrite_flag]
    rfl
  · rw [hdata2 .failNoWrite]
    have hp := save_noWrite_primary fs1
      (alistSet d "income"
        (.obj (alistSet inc cat (.num (PyFloat.add (.finite x) (.finite v)))))) cf df
    set fs2 := (save_summary_data fs1
      (alistSet d "income"
        (.obj (alistSet inc cat (.num (PyFloat.add (.finite x) (.finite v))))))
      cf df .failNoWrite).1 with hfs2
    have heta : fs2 = ⟨fs1.primary, fs2.backup⟩ := by rw [← hp]
    rw [heta, load_stable fs fs1 d m fs2.backup hl]
    simp [sectionGet, hsec, hcat]
  · rw [hdata2 .failCorrupt, save_corrupt_flag]
    rfl
  · rw [hdata2 .failCorrupt]
    have hp := save_corrupt_primary fs1
      (alistSet d "income"
        (.obj (alistSet inc cat (.num (PyFloat.add (.finite x) (.finite v)))))) cf df
    set fs2 := (save_summary_data fs1
      (alistSet d "income"
        (.obj (alistSet inc cat (.num (PyFloat.add (.finite x) (.finite v))))))
      cf df .failCorrupt).1 with hfs2
    have heta : fs2 = ⟨some .corrupt, fs2.backup⟩ := by rw [← hp]
    rw [heta, load_corrupt_eq]
    simp [default_income_zero cat hmem]
  · intro h
    have h1 : PyFloat.finite x = .finite (x + v) := by injection h
    have h2 : x = x + v := by injection h1
    have : v = 0 := by linarith
    exact absurd this (ne_of_gt hvpos)
  · intro h
    have h1 : PyFloat.finite (0 : ℚ) = .finite (x + v) := by injection h
    have h2 : (0 : ℚ) = x + v := by injection h1
    have : 0 < x + v := by linarith
    rw [← h2] at this
    exact lt_irrefl 0 this

/-- C6 amended witness: the theorem applied to the Salary-at-5.0 store
and a submission of 100. -/
theorem save_failure_preserves_store_witness :
    (submit_income "100" "Salary" fsFive ⟨false, false, false, .failNoWrite⟩).2
      = .saveFailed ∧
    (load_summary_data
        (submit_income "100" "Salary" fsFive ⟨false, false, false, .failNoWrite⟩).1
        false).map (fun r => sectionGet r.2.1 "income" "Salary")
      = some (some (.num (.finite 5))) :=
  have h := save_failure_preserves_store "100" "Salary" fsFive false false 100 5
    fsFive fiveDoc []
    [("Salary", .num (.finite 5)), ("Gift", .num (.finite 0)),
     ("Investment", .num (.finite 0)), ("Other", .num (.finite 0))]
    (by with_unfolding_all rfl) (by with_unfolding_all rfl)
    (by with_unfolding_all rfl) (by with_unfolding_all rfl)
    (by norm_num) (by simp [INCOME_CATEGORIES])
  ⟨h.1, h.2.1⟩

/-- C9: load-then-save is idempotent: saving a loaded document
succeeds, a second load returns the very same document with no repairs,
and a second save persists a document equal to the first loaded one. -/
theorem load_save_roundtrip (fs fs1 : FS) (d : Obj) (m : List Msg)
    (h : load_summary_data fs false = some (fs1, d, m)) :
    (save_summary_data fs1 d false false .ok).2.1 = true ∧
    load_summary_data (save_summary_data fs1 d false false .ok).1 false
      = some ((save_summary_data fs1 d false false .ok).1, d, []) ∧
    (save_summary_data (save_summary_data fs1 d false false .ok).1 d false false .ok).1.primary
      = some (.json (.obj d)) := by
  obtain ⟨kvs, hk⟩ := load_doc_shape fs fs1 d m h
  refine ⟨rfl, ?_, save_ok_primary _ _ _ _⟩
  have hp : (save_summary_data fs1 d false false .ok).1.primary
      = some (.json (.obj d)) := save_ok_primary _ _ _ _
  have heta : (save_summary_data fs1 d false false .ok).1
      = ⟨some (.json (.obj d)), (save_summary_data fs1 d false false .ok).1.backup⟩ := by
    rw [← hp]
  rw [heta]
  subst hk
  exact load_of_repaired kvs _

/-- C9 witness: the round-trip theorem applied to the Salary-at-5.0
store. -/
theorem load_save_roundtrip_witness :
    (save_summary_data fsFive fiveDoc false false .ok).2.1 = true ∧
    load_summary_data (save_summary_data fsFive fiveDoc false false .ok).1 false
      = some ((save_summary_data fsFive fiveDoc false false .ok).1, fiveDoc, []) :=
  have h := load_save_roundtrip fsFive fsFive fiveDoc [] (by with_unfolding_all rfl)
  ⟨h.1, h.2.1⟩

end PFT
